import Mathlib

/-!
Verification of the wallet risk scorer (shresthasriv/wallet-risk-scorer).

Shallow embedding of the feature-to-score pipeline:
- `src/core/interfaces.py`: `Transaction`, the analyzer's wallet_id injection;
- `src/features/extractor.py`: `CompoundFeatureExtractor`;
- `src/scoring/risk_scorer.py`: `CompoundRiskScorer`.

Python floats are modelled as real numbers; Python `int()` on a float is
truncation toward zero (`pyInt`); `math.log10 x` is `Real.logb 10 x`;
`x ** y` on non-negative bases is `Real.rpow`; `numpy` mean/std are the
arithmetic mean and the population standard deviation.

Two embeddings of the scorer are given:
- a total one over `Features` (a record with the extractor's complete key
  set plus the injected `wallet_id`), used when every key is present;
- a partial one over `PFeatures` (every key optional), in the `Option`
  monad, where `none` models a raised `KeyError`: `features[k]` is a
  monadic bind and `features.get(k, d)` is `Option.getD`.
-/

namespace WalletRisk

noncomputable section

/-- Transaction record (`src/core/interfaces.py`, `@dataclass Transaction`). -/
structure Transaction where
  hash : String
  block_number : ℤ
  timestamp : ℤ
  from_address : String
  to_address : String
  value : ℝ
  gas_used : ℝ
  gas_price : ℝ
  function_name : String
  input_data : String
  network : String := "ethereum"

/-- The FeatureVector with its complete fixed key set: the twenty keys produced
by `CompoundFeatureExtractor` plus the `wallet_id` key injected by
`WalletRiskAnalyzer.analyze_wallet` (absent key modelled as `""`, the default
the scorer reads it with). -/
structure Features where
  total_transactions : ℝ
  unique_contracts : ℝ
  total_value : ℝ
  avg_value : ℝ
  transaction_frequency : ℝ
  days_active : ℝ
  value_std : ℝ
  max_value : ℝ
  value_concentration : ℝ
  avg_gas_used : ℝ
  avg_gas_price : ℝ
  total_gas_cost : ℝ
  avg_time_between_tx : ℝ
  time_regularity : ℝ
  time_std : ℝ
  function_diversity : ℝ
  risky_function_ratio : ℝ
  safe_function_ratio : ℝ
  liquidation_count : ℝ
  function_names : List String
  wallet_id : String := ""

/-- Result of `CompoundRiskScorer.calculate_score`: the string sentinel `'NA'`
or an integer score. -/
inductive ScoreResult where
  | NA : ScoreResult
  | score : ℤ → ScoreResult

/-- Python `int()` applied to a float: truncation toward zero. -/
def pyInt (x : ℝ) : ℤ := if 0 ≤ x then ⌊x⌋ else ⌈x⌉

/-- Python's `sub in s` on lists of characters: `pat` occurs as a contiguous
sublist of `s`. -/
def containsSub (pat : List Char) : List Char → Bool
  | [] => pat.isEmpty
  | c :: cs => pat.isPrefixOf (c :: cs) || containsSub pat cs

/-- Python's `sub in s` on strings. -/
def py_in (sub s : String) : Bool := containsSub sub.toList s.toList

/-- Value of one hexadecimal digit, `none` if the character is not one. -/
def hexDigitVal (c : Char) : Option ℕ :=
  if '0' ≤ c ∧ c ≤ '9' then some (c.toNat - '0'.toNat)
  else if 'a' ≤ c ∧ c ≤ 'f' then some (c.toNat - 'a'.toNat + 10)
  else if 'A' ≤ c ∧ c ≤ 'F' then some (c.toNat - 'A'.toNat + 10)
  else none

/-- The characters Python's `int` parsing treats as whitespace
(`Py_UNICODE_ISSPACE`): the ASCII and Latin-1 whitespace and separator
controls, and the Unicode space-category code points. -/
def pyIsSpace (c : Char) : Bool :=
  [0x9, 0xA, 0xB, 0xC, 0xD, 0x1C, 0x1D, 0x1E, 0x1F, 0x20, 0x85, 0xA0,
    0x1680, 0x2000, 0x2001, 0x2002, 0x2003, 0x2004, 0x2005, 0x2006, 0x2007,
    0x2008, 0x2009, 0x200A, 0x2028, 0x2029, 0x202F, 0x205F,
    0x3000].contains c.toNat

/-- Hexadecimal digit scan after a first digit has been consumed: a single
underscore may stand between two digits, never doubled or trailing. -/
def scanHexRest : List Char → ℕ → Option ℕ
  | [], acc => some acc
  | '_' :: c :: rest, acc => (hexDigitVal c).bind fun d => scanHexRest rest (16 * acc + d)
  | '_' :: [], _ => none
  | c :: rest, acc => (hexDigitVal c).bind fun d => scanHexRest rest (16 * acc + d)

/-- Hexadecimal digit scan: at least one digit, no leading underscore. -/
def scanHex : List Char → Option ℕ
  | [] => none
  | c :: rest => (hexDigitVal c).bind fun d => scanHexRest rest d

/-- The digit part of `int(s, 16)` after whitespace and sign: an optional
`0x`/`0X` prefix, after which one underscore may precede the first digit. -/
def pyIntHexDigits : List Char → Option ℕ
  | '0' :: 'x' :: '_' :: rest => scanHex rest
  | '0' :: 'x' :: rest => scanHex rest
  | '0' :: 'X' :: '_' :: rest => scanHex rest
  | '0' :: 'X' :: rest => scanHex rest
  | cs => scanHex cs

/-- Python `int(s, 16)` on the characters of a string: whitespace stripped at
both ends, an optional `+`/`-` sign, an optional `0x`/`0X` prefix, and ASCII
hexadecimal digits with single underscores between them; `none` is the
`ValueError` branch. (Python would additionally map Unicode decimal digits to
ASCII digits before parsing; such exotic digit spellings are outside the
model.) -/
def pyIntHex (cs : List Char) : Option ℤ :=
  let stripped := ((cs.dropWhile pyIsSpace).reverse.dropWhile pyIsSpace).reverse
  match stripped with
  | '+' :: rest => (pyIntHexDigits rest).map fun n => (n : ℤ)
  | '-' :: rest => (pyIntHexDigits rest).map fun n => -(n : ℤ)
  | rest => (pyIntHexDigits rest).map fun n => (n : ℤ)

/-- `CompoundRiskScorer._get_wallet_entropy`: 0 when the id is shorter than 8
characters (which subsumes `not wallet_id`), otherwise the trailing 8
characters parsed by `int(..., 16)`, `(value mod 1000)/10000` with Python's
`%` (Euclidean: non-negative for the positive modulus 1000 even when the
parsed value is negative), and 0 when parsing fails. -/
def get_wallet_entropy (wallet_id : String) : ℝ :=
  if wallet_id.length < 8 then 0
  else
    match pyIntHex (wallet_id.toList.drop (wallet_id.length - 8)) with
    | some hash_val => ((hash_val % 1000 : ℤ) : ℝ) / 10000
    | none => 0

/-- `CompoundRiskScorer._normalize_value`. The `minVal` parameter is unused by
the body, exactly as in the source. -/
def normalize_value (value : ℝ) (_minVal : ℝ) (maxVal : ℝ) : ℝ :=
  if value ≤ 0 then 0
  else min 1.0 (Real.logb 10 (value + 1) / Real.logb 10 (maxVal + 1))

/-- `CompoundRiskScorer._calculate_liquidation_risk`. -/
def calculate_liquidation_risk (features : Features) : ℝ :=
  let liquidation_count := features.liquidation_count
  let liquidation_risk := min 1.0 (liquidation_count / 3.0)
  let risky_functions := features.risky_function_ratio
  let function_risk := min 0.9 (risky_functions * 1.2)
  liquidation_risk * 0.7 + function_risk * 0.3

/-- `CompoundRiskScorer._calculate_leverage_risk`. -/
def calculate_leverage_risk (features : Features) : ℝ :=
  let max_value := features.max_value
  let value_concentration := features.value_concentration
  let size_risk :=
    if max_value ≤ 0 then
      let gas_value := features.total_gas_cost / 10 ^ 18
      min 0.6 (gas_value / 0.02)
    else
      min 0.95 (normalize_value max_value 0.001 1000 * 1.2)
  let concentration_risk := min 0.95 (value_concentration * 1.5)
  let value_volatility := min 1.0 (features.value_std / max max_value 0.001)
  size_risk * 0.4 + concentration_risk * 0.4 + value_volatility * 0.2

/-- `CompoundRiskScorer._calculate_activity_risk`. -/
def calculate_activity_risk (features : Features) : ℝ :=
  let frequency := features.transaction_frequency
  let days_active := features.days_active
  let frequency_risk :=
    if frequency < 0.1 then 0.3 + (0.1 - frequency) * 2
    else if frequency > 3 then min 0.9 (0.4 + (frequency - 3) * 0.1)
    else 0.1 + frequency * 0.1
  let time_risk := max 0.1 (min 0.8 (1.0 / Real.sqrt (days_active + 1)))
  let irregularity := 1.0 - features.time_regularity
  let irregularity_risk := min 0.7 (irregularity * 0.8)
  frequency_risk * 0.4 + time_risk * 0.4 + irregularity_risk * 0.2

/-- `CompoundRiskScorer._calculate_behavioral_risk`. -/
def calculate_behavioral_risk (features : Features) : ℝ :=
  let function_diversity := features.function_diversity
  let safe_ratio := features.safe_function_ratio
  let unique_contracts := features.unique_contracts
  let diversity_risk := max 0.1 (min 0.8 (1.0 / (function_diversity + 0.5)))
  let safety_risk := (1.0 - safe_ratio) ^ (1.5 : ℝ)
  let contract_risk := max 0.1 (min 0.7 (0.8 / Real.sqrt (unique_contracts + 0.5)))
  let avg_gas := features.avg_gas_used
  let gas_efficiency_risk := if avg_gas > 0 then min 0.3 (avg_gas / 500000) else 0.1
  diversity_risk * 0.3 + safety_risk * 0.3 + contract_risk * 0.3 + gas_efficiency_risk * 0.1

/-- The flash-loan indicator list of `_calculate_trading_pattern_risk`. -/
def flash_loan_indicators : List String := ["flashloan", "flash", "borrow", "liquidate"]

/-- `CompoundRiskScorer._calculate_trading_pattern_risk`. -/
def calculate_trading_pattern_risk (features : Features) : ℝ :=
  let function_names := features.function_names
  let flash_loan_usage : ℝ :=
    ((function_names.filter fun func =>
        flash_loan_indicators.any fun indicator => py_in indicator func.toLower).length : ℝ)
  let flash_loan_risk := min 0.9 (flash_loan_usage / max (function_names.length : ℝ) 1 * 3.0)
  let max_value := features.max_value
  let avg_value := features.avg_value
  let position_sizing_risk :=
    if max_value > 0 ∧ avg_value > 0 then min 0.8 (max_value / max avg_value 0.001 / 15.0)
    else 0.1
  let time_std := features.time_std
  let avg_interval := features.avg_time_between_tx
  let panic_trading_risk :=
    if avg_interval > 0 then min 0.7 (time_std / avg_interval / 5.0) else 0.2
  let value_std := features.value_std
  let volatility_risk :=
    if avg_value > 0 then min 0.8 (value_std / avg_value * 0.5) else 0.1
  let final_risk := max 0.0 (flash_loan_risk * 0.3 + position_sizing_risk * 0.3 +
    panic_trading_risk * 0.2 + volatility_risk * 0.2)
  min 1.0 final_risk

/-- `CompoundRiskScorer._calculate_technical_risk`. -/
def calculate_technical_risk (features : Features) : ℝ :=
  let avg_gas_price := features.avg_gas_price
  let gas_efficiency_risk :=
    if avg_gas_price > 0 then
      let normalized_gas := min 1.0 (avg_gas_price / 10 ^ 9 / 100)
      min 0.9 (0.2 + normalized_gas * 0.7)
    else 0.2
  let function_diversity := features.function_diversity
  let failure_risk := min 0.8 (function_diversity / 10.0)
  let unique_contracts := features.unique_contracts
  let contract_interaction_risk := min 0.9 (unique_contracts / 5.0)
  let frequency := features.transaction_frequency
  let overtrading_risk :=
    if frequency > 0.5 then min 0.9 (0.1 + (frequency - 0.5) * 0.3) else 0.1
  gas_efficiency_risk * 0.3 + failure_risk * 0.2 +
    contract_interaction_risk * 0.3 + overtrading_risk * 0.2

/-- The weighted combination in `calculate_score`, with the `self.weights`
table {liquidation .20, leverage .20, activity .15, behavioral .15,
trading_pattern .15, technical .15} inlined. -/
def weighted_score (features : Features) : ℝ :=
  calculate_liquidation_risk features * 0.20 +
  calculate_leverage_risk features * 0.20 +
  calculate_activity_risk features * 0.15 +
  calculate_behavioral_risk features * 0.15 +
  calculate_trading_pattern_risk features * 0.15 +
  calculate_technical_risk features * 0.15

/-- `CompoundRiskScorer.calculate_score` over a complete FeatureVector. -/
def calculate_score (features : Features) : ScoreResult :=
  if features.total_transactions = 0 then ScoreResult.NA
  else
    let wallet_entropy := get_wallet_entropy features.wallet_id
    let adjusted_score := weighted_score features + wallet_entropy * 0.05
    ScoreResult.score (min 1000 (max 0 (pyInt (adjusted_score * 1000))))

/-- Arithmetic mean of a list of reals (`np.mean`; only applied to non-empty
lists by the guarded call sites). -/
def listMean (l : List ℝ) : ℝ := l.sum / (l.length : ℝ)

/-- Population standard deviation of a list of reals (`np.std`). -/
def listStd (l : List ℝ) : ℝ :=
  Real.sqrt (listMean (l.map fun x => (x - listMean l) ^ 2))

/-- Python `max` over a non-empty list of integers. -/
def listMaxZ : List ℤ → ℤ
  | [] => 0
  | x :: xs => xs.foldl max x

/-- Python `min` over a non-empty list of integers. -/
def listMinZ : List ℤ → ℤ
  | [] => 0
  | x :: xs => xs.foldl min x

/-- Python `max` over a non-empty list of reals. -/
def listMaxR : List ℝ → ℝ
  | [] => 0
  | x :: xs => xs.foldl max x

/-- The risky-function pattern list of `_extract_function_features`. -/
def risky_functions_list : List String :=
  ["liquidateBorrow", "repayBorrow", "borrow", "absorb", "buyCollateral"]

/-- The safe-function pattern list of `_extract_function_features`. -/
def safe_functions_list : List String :=
  ["mint", "redeem", "transfer", "supply", "withdraw"]

/-- `CompoundFeatureExtractor._get_default_features`: the canonical default
vector for an empty transaction list (`wallet_id` is not among the extractor's
keys; it keeps the record's `""` default). -/
def get_default_features : Features :=
  { total_transactions := 0
    unique_contracts := 0
    total_value := 0
    avg_value := 0
    transaction_frequency := 0
    days_active := 0
    value_std := 0
    max_value := 0
    value_concentration := 0
    avg_gas_used := 0
    avg_gas_price := 0
    total_gas_cost := 0
    avg_time_between_tx := 0
    time_regularity := 0
    time_std := 0
    function_diversity := 0
    risky_function_ratio := 0
    safe_function_ratio := 0
    liquidation_count := 0
    function_names := [] }

/-- `CompoundFeatureExtractor.extract_features`: the empty-input guard, then
the six `_extract_*` feature groups merged into the one record (their key sets
are disjoint, so the dict merge is this record). Guards that are statically
true inside the non-empty branch (`if transactions`) are folded away. -/
def extract_features (transactions : List Transaction) : Features :=
  match transactions with
  | [] => get_default_features
  | t :: ts =>
    let txs := t :: ts
    -- _extract_basic_features
    let total_transactions : ℝ := (txs.length : ℝ)
    let unique_contracts : ℝ := ((txs.map Transaction.to_address).dedup.length : ℝ)
    let total_value : ℝ := (txs.map Transaction.value).sum
    let avg_value : ℝ := listMean (txs.map Transaction.value)
    -- _extract_frequency_features
    let timestamps : List ℤ := txs.map Transaction.timestamp
    let time_span : ℤ := listMaxZ timestamps - listMinZ timestamps
    let days_active : ℝ := if 0 < time_span then (time_span : ℝ) / 86400 else 1
    let transaction_frequency : ℝ := total_transactions / max days_active 1
    -- _extract_value_features
    let values : List ℝ := (txs.map Transaction.value).filter fun v => decide (0 < v)
    let (value_std, max_value, value_concentration) :=
      match values with
      | [] => ((0 : ℝ), (0 : ℝ), (0 : ℝ))
      | _ :: _ =>
        (listStd values, listMaxR values,
          if 0 < values.sum then listMaxR values / values.sum else 0)
    -- _extract_gas_features
    let gas_used : List ℝ := txs.map Transaction.gas_used
    let gas_prices : List ℝ := txs.map Transaction.gas_price
    let avg_gas_used : ℝ := match gas_used with | [] => 0 | _ :: _ => listMean gas_used
    let avg_gas_price : ℝ := match gas_prices with | [] => 0 | _ :: _ => listMean gas_prices
    let total_gas_cost : ℝ := (txs.map fun tx => tx.gas_used * tx.gas_price).sum
    -- _extract_temporal_features
    let (avg_time_between_tx, time_regularity, time_std) :=
      if txs.length < 2 then ((0 : ℝ), (0 : ℝ), (0 : ℝ))
      else
        let sortedTs := timestamps.mergeSort (fun a b => a ≤ b)
        let intervals : List ℝ :=
          (List.zipWith (fun x y => (x - y : ℤ)) sortedTs.tail sortedTs).map fun z => (z : ℝ)
        (listMean intervals,
          match intervals with | [] => 0 | _ :: _ => 1 / (1 + listStd intervals),
          match intervals with | [] => 0 | _ :: _ => listStd intervals)
    -- _extract_function_features
    let functions : List String :=
      (txs.filter fun tx => decide (tx.function_name ≠ "")).map Transaction.function_name
    let function_diversity : ℝ := (functions.dedup.length : ℝ)
    let risky_count : ℝ :=
      ((functions.filter fun fn =>
          risky_functions_list.any fun r => py_in r.toLower fn.toLower).length : ℝ)
    let safe_count : ℝ :=
      ((functions.filter fun fn =>
          safe_functions_list.any fun s => py_in s.toLower fn.toLower).length : ℝ)
    let liquidation_count : ℝ :=
      ((functions.filter fun fn => py_in "liquidateborrow" fn.toLower).length : ℝ)
    { total_transactions := total_transactions
      unique_contracts := unique_contracts
      total_value := total_value
      avg_value := avg_value
      transaction_frequency := transaction_frequency
      days_active := days_active
      value_std := value_std
      max_value := max_value
      value_concentration := value_concentration
      avg_gas_used := avg_gas_used
      avg_gas_price := avg_gas_price
      total_gas_cost := total_gas_cost
      avg_time_between_tx := avg_time_between_tx
      time_regularity := time_regularity
      time_std := time_std
      function_diversity := function_diversity
      risky_function_ratio := risky_count / total_transactions
      safe_function_ratio := safe_count / total_transactions
      liquidation_count := liquidation_count
      function_names := functions }

/-- `WalletRiskAnalyzer.analyze_wallet`, restricted to the in-scope pipeline:
extract features from the wallet's transactions, inject the wallet id, score. -/
def analyze_wallet (transactions : List Transaction) (wallet_address : String) : ScoreResult :=
  calculate_score { extract_features transactions with wallet_id := wallet_address }

/-- A FeatureVector as an arbitrary mapping of feature names to values: every
key optional. `features[k]` on a missing key is a raised `KeyError`, modelled
by `none` in the `Option` monad; `features.get(k, d)` is `Option.getD d`. -/
structure PFeatures where
  total_transactions : Option ℝ := none
  unique_contracts : Option ℝ := none
  total_value : Option ℝ := none
  avg_value : Option ℝ := none
  transaction_frequency : Option ℝ := none
  days_active : Option ℝ := none
  value_std : Option ℝ := none
  max_value : Option ℝ := none
  value_concentration : Option ℝ := none
  avg_gas_used : Option ℝ := none
  avg_gas_price : Option ℝ := none
  total_gas_cost : Option ℝ := none
  avg_time_between_tx : Option ℝ := none
  time_regularity : Option ℝ := none
  time_std : Option ℝ := none
  function_diversity : Option ℝ := none
  risky_function_ratio : Option ℝ := none
  safe_function_ratio : Option ℝ := none
  liquidation_count : Option ℝ := none
  function_names : Option (List String) := none
  wallet_id : Option String := none

/-- `_calculate_liquidation_risk` over an arbitrary mapping: both keys are read
with `features[...]`, so either being missing raises. -/
def calculate_liquidation_riskP (f : PFeatures) : Option ℝ := do
  let liquidation_count ← f.liquidation_count
  let liquidation_risk := min 1.0 (liquidation_count / 3.0)
  let risky_functions ← f.risky_function_ratio
  let function_risk := min 0.9 (risky_functions * 1.2)
  pure (liquidation_risk * 0.7 + function_risk * 0.3)

/-- `_calculate_leverage_risk` over an arbitrary mapping: `max_value`,
`value_concentration` and `value_std` are read with `features[...]`;
`total_gas_cost` with `features.get(..., 0)`. -/
def calculate_leverage_riskP (f : PFeatures) : Option ℝ := do
  let max_value ← f.max_value
  let value_concentration ← f.value_concentration
  let size_risk :=
    if max_value ≤ 0 then min 0.6 (f.total_gas_cost.getD 0 / 10 ^ 18 / 0.02)
    else min 0.95 (normalize_value max_value 0.001 1000 * 1.2)
  let concentration_risk := min 0.95 (value_concentration * 1.5)
  let value_std ← f.value_std
  let value_volatility := min 1.0 (value_std / max max_value 0.001)
  pure (size_risk * 0.4 + concentration_risk * 0.4 + value_volatility * 0.2)

/-- `_calculate_activity_risk` over an arbitrary mapping: all three keys are
read with `features[...]`. -/
def calculate_activity_riskP (f : PFeatures) : Option ℝ := do
  let frequency ← f.transaction_frequency
  let days_active ← f.days_active
  let frequency_risk :=
    if frequency < 0.1 then 0.3 + (0.1 - frequency) * 2
    else if frequency > 3 then min 0.9 (0.4 + (frequency - 3) * 0.1)
    else 0.1 + frequency * 0.1
  let time_risk := max 0.1 (min 0.8 (1.0 / Real.sqrt (days_active + 1)))
  let time_regularity ← f.time_regularity
  let irregularity_risk := min 0.7 ((1.0 - time_regularity) * 0.8)
  pure (frequency_risk * 0.4 + time_risk * 0.4 + irregularity_risk * 0.2)

/-- `_calculate_behavioral_risk` over an arbitrary mapping: `function_diversity`,
`safe_function_ratio` and `unique_contracts` are read with `features[...]`;
`avg_gas_used` with `features.get(..., 0)`. -/
def calculate_behavioral_riskP (f : PFeatures) : Option ℝ := do
  let function_diversity ← f.function_diversity
  let safe_ratio ← f.safe_function_ratio
  let unique_contracts ← f.unique_contracts
  let diversity_risk := max 0.1 (min 0.8 (1.0 / (function_diversity + 0.5)))
  let safety_risk := (1.0 - safe_ratio) ^ (1.5 : ℝ)
  let contract_risk := max 0.1 (min 0.7 (0.8 / Real.sqrt (unique_contracts + 0.5)))
  let avg_gas := f.avg_gas_used.getD 0
  let gas_efficiency_risk := if avg_gas > 0 then min 0.3 (avg_gas / 500000) else 0.1
  pure (diversity_risk * 0.3 + safety_risk * 0.3 + contract_risk * 0.3 +
    gas_efficiency_risk * 0.1)

/-- `_calculate_trading_pattern_risk` over an arbitrary mapping: every key is
read with `features.get(...)` and a default, so this sub-score never raises. -/
def calculate_trading_pattern_riskP (f : PFeatures) : ℝ :=
  let function_names := f.function_names.getD []
  let flash_loan_usage : ℝ :=
    ((function_names.filter fun func =>
        flash_loan_indicators.any fun indicator => py_in indicator func.toLower).length : ℝ)
  let flash_loan_risk := min 0.9 (flash_loan_usage / max (function_names.length : ℝ) 1 * 3.0)
  let max_value := f.max_value.getD 0
  let avg_value := f.avg_value.getD 0.001
  let position_sizing_risk :=
    if max_value > 0 ∧ avg_value > 0 then min 0.8 (max_value / max avg_value 0.001 / 15.0)
    else 0.1
  let time_std := f.time_std.getD 0
  let avg_interval := f.avg_time_between_tx.getD 86400
  let panic_trading_risk :=
    if avg_interval > 0 then min 0.7 (time_std / avg_interval / 5.0) else 0.2
  let value_std := f.value_std.getD 0
  let volatility_risk :=
    if avg_value > 0 then min 0.8 (value_std / avg_value * 0.5) else 0.1
  let final_risk := max 0.0 (flash_loan_risk * 0.3 + position_sizing_risk * 0.3 +
    panic_trading_risk * 0.2 + volatility_risk * 0.2)
  min 1.0 final_risk

/-- `_calculate_technical_risk` over an arbitrary mapping: every key is read
with `features.get(...)` and a default, so this sub-score never raises. -/
def calculate_technical_riskP (f : PFeatures) : ℝ :=
  let avg_gas_price := f.avg_gas_price.getD 0
  let gas_efficiency_risk :=
    if avg_gas_price > 0 then min 0.9 (0.2 + min 1.0 (avg_gas_price / 10 ^ 9 / 100) * 0.7)
    else 0.2
  let function_diversity := f.function_diversity.getD 1
  let failure_risk := min 0.8 (function_diversity / 10.0)
  let unique_contracts := f.unique_contracts.getD 1
  let contract_interaction_risk := min 0.9 (unique_contracts / 5.0)
  let frequency := f.transaction_frequency.getD 0
  let overtrading_risk :=
    if frequency > 0.5 then min 0.9 (0.1 + (frequency - 0.5) * 0.3) else 0.1
  gas_efficiency_risk * 0.3 + failure_risk * 0.2 +
    contract_interaction_risk * 0.3 + overtrading_risk * 0.2

/-- `calculate_score` over an arbitrary mapping, in the order the source reads
and computes: `none` is a raised `KeyError`. -/
def calculate_scoreP (f : PFeatures) : Option ScoreResult := do
  let total_transactions ← f.total_transactions
  if total_transactions = 0 then pure ScoreResult.NA
  else do
    let liquidation_score ← calculate_liquidation_riskP f
    let leverage_score ← calculate_leverage_riskP f
    let activity_score ← calculate_activity_riskP f
    let behavioral_score ← calculate_behavioral_riskP f
    let trading_pattern_score := calculate_trading_pattern_riskP f
    let technical_score := calculate_technical_riskP f
    let ws := liquidation_score * 0.20 + leverage_score * 0.20 +
      activity_score * 0.15 + behavioral_score * 0.15 +
      trading_pattern_score * 0.15 + technical_score * 0.15
    let wallet_entropy := get_wallet_entropy (f.wallet_id.getD "")
    let adjusted_score := ws + wallet_entropy * 0.05
    pure (ScoreResult.score (min 1000 (max 0 (pyInt (adjusted_score * 1000)))))

/-- Checked division: `none` exactly when the denominator is zero, i.e. when
Python would raise `ZeroDivisionError`. -/
def divCk (a b : ℝ) : Option ℝ := if b = 0 then none else some (a / b)

/-- Checked square root: `none` exactly when the argument is negative, i.e.
when Python's `math.sqrt` would raise `ValueError`. -/
def sqrtCk (x : ℝ) : Option ℝ := if x < 0 then none else some (Real.sqrt x)

/-- `_calculate_trading_pattern_risk` with every division checked. -/
def calculate_trading_pattern_risk_ck (f : Features) : Option ℝ := do
  let function_names := f.function_names
  let flash_loan_usage : ℝ :=
    ((function_names.filter fun func =>
        flash_loan_indicators.any fun indicator => py_in indicator func.toLower).length : ℝ)
  let fl ← divCk flash_loan_usage (max (function_names.length : ℝ) 1)
  let flash_loan_risk := min 0.9 (fl * 3.0)
  let position_sizing_risk ←
    if f.max_value > 0 ∧ f.avg_value > 0 then do
      let a ← divCk f.max_value (max f.avg_value 0.001)
      let b ← divCk a 15.0
      pure (min 0.8 b)
    else pure 0.1
  let panic_trading_risk ←
    if f.avg_time_between_tx > 0 then do
      let a ← divCk f.time_std f.avg_time_between_tx
      let b ← divCk a 5.0
      pure (min 0.7 b)
    else pure 0.2
  let volatility_risk ←
    if f.avg_value > 0 then do
      let a ← divCk f.value_std f.avg_value
      pure (min 0.8 (a * 0.5))
    else pure 0.1
  pure (min 1.0 (max 0.0 (flash_loan_risk * 0.3 + position_sizing_risk * 0.3 +
    panic_trading_risk * 0.2 + volatility_risk * 0.2)))

/-- `_calculate_technical_risk` with every division checked. -/
def calculate_technical_risk_ck (f : Features) : Option ℝ := do
  let gas_efficiency_risk ←
    if f.avg_gas_price > 0 then do
      let a ← divCk f.avg_gas_price (10 ^ 9)
      let b ← divCk a 100
      pure (min 0.9 (0.2 + min 1.0 b * 0.7))
    else pure 0.2
  let fr ← divCk f.function_diversity 10.0
  let failure_risk := min 0.8 fr
  let cr ← divCk f.unique_contracts 5.0
  let contract_interaction_risk := min 0.9 cr
  let overtrading_risk :=
    if f.transaction_frequency > 0.5 then
      min 0.9 (0.1 + (f.transaction_frequency - 0.5) * 0.3)
    else 0.1
  pure (gas_efficiency_risk * 0.3 + failure_risk * 0.2 +
    contract_interaction_risk * 0.3 + overtrading_risk * 0.2)

/-- `_calculate_behavioral_risk` with every division and square root checked. -/
def calculate_behavioral_risk_ck (f : Features) : Option ℝ := do
  let dv ← divCk 1.0 (f.function_diversity + 0.5)
  let diversity_risk := max 0.1 (min 0.8 dv)
  let safety_risk := (1.0 - f.safe_function_ratio) ^ (1.5 : ℝ)
  let s ← sqrtCk (f.unique_contracts + 0.5)
  let cr ← divCk 0.8 s
  let contract_risk := max 0.1 (min 0.7 cr)
  let gas_efficiency_risk ←
    if f.avg_gas_used > 0 then do
      let g ← divCk f.avg_gas_used 500000
      pure (min 0.3 g)
    else pure 0.1
  pure (diversity_risk * 0.3 + safety_risk * 0.3 + contract_risk * 0.3 +
    gas_efficiency_risk * 0.1)

/-- A valid feature vector in the sense of §8 of the spec: all numeric features
non-negative, the ratio-like features at most 1, and at least one transaction. -/
structure ValidFeatures (f : Features) : Prop where
  tt_nonneg : 0 ≤ f.total_transactions
  uc_nonneg : 0 ≤ f.unique_contracts
  tv_nonneg : 0 ≤ f.total_value
  av_nonneg : 0 ≤ f.avg_value
  tf_nonneg : 0 ≤ f.transaction_frequency
  da_nonneg : 0 ≤ f.days_active
  vstd_nonneg : 0 ≤ f.value_std
  mv_nonneg : 0 ≤ f.max_value
  vc_nonneg : 0 ≤ f.value_concentration
  agu_nonneg : 0 ≤ f.avg_gas_used
  agp_nonneg : 0 ≤ f.avg_gas_price
  tgc_nonneg : 0 ≤ f.total_gas_cost
  atbt_nonneg : 0 ≤ f.avg_time_between_tx
  treg_nonneg : 0 ≤ f.time_regularity
  tstd_nonneg : 0 ≤ f.time_std
  fd_nonneg : 0 ≤ f.function_diversity
  rfr_nonneg : 0 ≤ f.risky_function_ratio
  sfr_nonneg : 0 ≤ f.safe_function_ratio
  lc_nonneg : 0 ≤ f.liquidation_count
  vc_le_one : f.value_concentration ≤ 1
  treg_le_one : f.time_regularity ≤ 1
  rfr_le_one : f.risky_function_ratio ≤ 1
  sfr_le_one : f.safe_function_ratio ≤ 1
  tt_pos : 0 < f.total_transactions

/-- A feature vector whose numeric entries are all non-negative. -/
structure NonnegFeatures (f : Features) : Prop where
  tt_nonneg : 0 ≤ f.total_transactions
  uc_nonneg : 0 ≤ f.unique_contracts
  tv_nonneg : 0 ≤ f.total_value
  av_nonneg : 0 ≤ f.avg_value
  tf_nonneg : 0 ≤ f.transaction_frequency
  da_nonneg : 0 ≤ f.days_active
  vstd_nonneg : 0 ≤ f.value_std
  mv_nonneg : 0 ≤ f.max_value
  vc_nonneg : 0 ≤ f.value_concentration
  agu_nonneg : 0 ≤ f.avg_gas_used
  agp_nonneg : 0 ≤ f.avg_gas_price
  tgc_nonneg : 0 ≤ f.total_gas_cost
  atbt_nonneg : 0 ≤ f.avg_time_between_tx
  treg_nonneg : 0 ≤ f.time_regularity
  tstd_nonneg : 0 ≤ f.time_std
  fd_nonneg : 0 ≤ f.function_diversity
  rfr_nonneg : 0 ≤ f.risky_function_ratio
  sfr_nonneg : 0 ≤ f.safe_function_ratio
  lc_nonneg : 0 ≤ f.liquidation_count

/-- leverage_risk as the spec's §4.2 table row literally states it: the size
term is the log-normalized max value when it is positive (no ×1.2 factor, no
0.95 cap are mentioned), otherwise total gas cost/1e18 divided by the
reference threshold 0.02; the concentration term is `value_concentration*1.1`
capped at 0.9; the volatility term is `value_std/max(max_value,0.001)` capped
at 1.0; weights .4/.4/.2. -/
def leverage_risk_spec (features : Features) : ℝ :=
  let size_risk :=
    if features.max_value > 0 then normalize_value features.max_value 0.001 1000
    else features.total_gas_cost / 10 ^ 18 / 0.02
  let concentration_risk := min 0.9 (features.value_concentration * 1.1)
  let value_volatility := min 1.0 (features.value_std / max features.max_value 0.001)
  size_risk * 0.4 + concentration_risk * 0.4 + value_volatility * 0.2

/-- The final-score formula as §4.2 literally states it: rounding (nearest
integer) instead of the source's `int()` truncation. -/
def calculate_score_spec (features : Features) : ScoreResult :=
  if features.total_transactions = 0 then ScoreResult.NA
  else
    let wallet_entropy := get_wallet_entropy features.wallet_id
    let adjusted_score := weighted_score features + wallet_entropy * 0.05
    ScoreResult.score (min 1000 (max 0 (round (adjusted_score * 1000))))

/-- A concrete, fully populated feature vector: one transaction, one
liquidation-counting function, no value moved. -/
def fv1 : Features :=
  { total_transactions := 1
    unique_contracts := 0
    total_value := 0
    avg_value := 0
    transaction_frequency := 1
    days_active := 0
    value_std := 0
    max_value := 0
    value_concentration := 0
    avg_gas_used := 0
    avg_gas_price := 0
    total_gas_cost := 0
    avg_time_between_tx := 86400
    time_regularity := 1
    time_std := 0
    function_diversity := 0
    risky_function_ratio := 0
    safe_function_ratio := 1
    liquidation_count := 1
    function_names := []
    wallet_id := "" }

/-- The vector `fv1` with full value concentration, separating the source's
concentration term `min(0.95, vc*1.5)` from the spec's `min(0.9, vc*1.1)`. -/
def C3fv : Features := { fv1 with value_concentration := 1 }

/-- A complete `Features` record seen as a mapping with every key present. -/
def toPFeatures (f : Features) : PFeatures :=
  { total_transactions := some f.total_transactions
    unique_contracts := some f.unique_contracts
    total_value := some f.total_value
    avg_value := some f.avg_value
    transaction_frequency := some f.transaction_frequency
    days_active := some f.days_active
    value_std := some f.value_std
    max_value := some f.max_value
    value_concentration := some f.value_concentration
    avg_gas_used := some f.avg_gas_used
    avg_gas_price := some f.avg_gas_price
    total_gas_cost := some f.total_gas_cost
    avg_time_between_tx := some f.avg_time_between_tx
    time_regularity := some f.time_regularity
    time_std := some f.time_std
    function_diversity := some f.function_diversity
    risky_function_ratio := some f.risky_function_ratio
    safe_function_ratio := some f.safe_function_ratio
    liquidation_count := some f.liquidation_count
    function_names := some f.function_names
    wallet_id := some f.wallet_id }

/-- A mapping holding only `total_transactions = 1`: well-formed for the spec's
failure policy, but missing the keys the source reads with `features[...]`. -/
def C1bad : PFeatures := { total_transactions := some 1 }

/-! Helper lemmas: concrete evaluations and interval bounds shared by the
claim theorems. -/

lemma sqrt_half_lb : (0.7 : ℝ) ≤ 0.8 / Real.sqrt 0.5 := by
  have h1 : Real.sqrt 0.5 ≤ 1 := by
    rw [show (1 : ℝ) = Real.sqrt 1 by rw [Real.sqrt_one]]
    exact Real.sqrt_le_sqrt (by norm_num)
  have h2 : 0 < Real.sqrt 0.5 := Real.sqrt_pos.mpr (by norm_num)
  have h3 : (0.8 : ℝ) / 1 ≤ 0.8 / Real.sqrt 0.5 :=
    div_le_div_of_nonneg_left (by norm_num) h2 h1
  linarith

lemma entropy_empty : get_wallet_entropy "" = 0 := rfl

lemma fv1_liquidation : calculate_liquidation_risk fv1 = 7 / 30 := by
  simp only [calculate_liquidation_risk, fv1]
  norm_num [min_def]

lemma fv1_leverage : calculate_leverage_risk fv1 = 0 := by
  simp only [calculate_leverage_risk, fv1]
  norm_num [min_def, max_def]

lemma fv1_activity : calculate_activity_risk fv1 = 0.4 := by
  simp only [calculate_activity_risk, fv1]
  norm_num [min_def, max_def, Real.sqrt_one]

lemma fv1_behavioral : calculate_behavioral_risk fv1 = 0.46 := by
  simp only [calculate_behavioral_risk, fv1]
  rw [show ((0 : ℝ) + 0.5) = 0.5 by norm_num,
    min_eq_left sqrt_half_lb]
  norm_num [min_def, max_def, Real.zero_rpow]

lemma fv1_trading : calculate_trading_pattern_risk fv1 = 0.05 := by
  simp only [calculate_trading_pattern_risk, fv1]
  norm_num [min_def, max_def]

lemma fv1_technical : calculate_technical_risk fv1 = 0.11 := by
  simp only [calculate_technical_risk, fv1]
  norm_num [min_def, max_def]

lemma fv1_weighted : weighted_score fv1 = 599 / 3000 := by
  rw [weighted_score, fv1_liquidation, fv1_leverage, fv1_activity, fv1_behavioral,
    fv1_trading, fv1_technical]
  norm_num

lemma fv1_tt_ne : fv1.total_transactions ≠ 0 := by norm_num [fv1]

/-! Claim theorems. -/

/-- C6: `extract_features` applied to the empty transaction list returns
exactly the canonical default vector, field for field: every numeric feature
0, the function-name list empty, the complete fixed key set present (the
record type makes every key present by construction). -/
theorem C6_default_vector :
    extract_features [] =
      { total_transactions := 0
        unique_contracts := 0
        total_value := 0
        avg_value := 0
        transaction_frequency := 0
        days_active := 0
        value_std := 0
        max_value := 0
        value_concentration := 0
        avg_gas_used := 0
        avg_gas_price := 0
        total_gas_cost := 0
        avg_time_between_tx := 0
        time_regularity := 0
        time_std := 0
        function_diversity := 0
        risky_function_ratio := 0
        safe_function_ratio := 0
        liquidation_count := 0
        function_names := []
        wallet_id := "" } := rfl

/-- C7: `liquidation_risk` is monotone non-decreasing in `liquidation_count`:
for `0 ≤ a ≤ b ≤ 3`, holding every other feature fixed, the sub-score at
count `b` is at least the one at count `a`. (The proof uses only `a ≤ b`;
the `{0,...,3}` range of the claim is kept as hypotheses.) -/
theorem C7_liquidation_monotone (f : Features) (a b : ℝ)
    (_h0 : 0 ≤ a) (hab : a ≤ b) (_h3 : b ≤ 3) :
    calculate_liquidation_risk { f with liquidation_count := a } ≤
      calculate_liquidation_risk { f with liquidation_count := b } := by
  simp only [calculate_liquidation_risk]
  have h1 : min 1.0 (a / 3.0) ≤ min 1.0 (b / 3.0) :=
    min_le_min le_rfl (by linarith)
  linarith

/-- Witness for C7 at `a = 0`, `b = 3` on the concrete vector `fv1`. -/
theorem C7_witness :
    calculate_liquidation_risk { fv1 with liquidation_count := 0 } ≤
      calculate_liquidation_risk { fv1 with liquidation_count := 3 } :=
  C7_liquidation_monotone fv1 0 3 le_rfl (by norm_num) (by norm_num)

/-- C3 counterexample: at full value concentration the source's leverage
sub-score is 0.38 (`min(0.95, vc*1.5)` term) while the spec's table-row
formula (`min(0.9, vc*1.1)` term) gives 0.36. -/
theorem C3_counterexample :
    calculate_leverage_risk C3fv = 0.38 ∧ leverage_risk_spec C3fv = 0.36 ∧
      calculate_leverage_risk C3fv ≠ leverage_risk_spec C3fv := by
  have h1 : calculate_leverage_risk C3fv = 0.38 := by
    simp only [calculate_leverage_risk, C3fv, fv1]
    norm_num [min_def, max_def]
  have h2 : leverage_risk_spec C3fv = 0.36 := by
    simp only [leverage_risk_spec, C3fv, fv1]
    norm_num [min_def, max_def]
  refine ⟨h1, h2, ?_⟩
  rw [h1, h2]
  norm_num

/-- C3 amended: `leverage_risk` is the size term (when `max_value ≤ 0`,
`min(0.6, (total_gas_cost/1e18)/0.02)`; otherwise the log-normalized max
value times 1.2 capped at 0.95) weighted 0.4, plus `min(0.95,
value_concentration*1.5)` weighted 0.4, plus `min(1.0,
value_std/max(max_value,0.001))` weighted 0.2. -/
theorem C3_amended (f : Features) :
    calculate_leverage_risk f =
      (if f.max_value ≤ 0 then min 0.6 (f.total_gas_cost / 10 ^ 18 / 0.02)
        else min 0.95 (normalize_value f.max_value 0.001 1000 * 1.2)) * 0.4 +
      min 0.95 (f.value_concentration * 1.5) * 0.4 +
      min 1.0 (f.value_std / max f.max_value 0.001) * 0.2 := rfl

/-- C2 counterexample: on `fv1` the adjusted score is 599/3000, so the scaled
value is 599/3 = 199.66…; the source truncates (`int()`) to 199 while the
spec's `round` gives 200. -/
theorem C2_counterexample :
    calculate_score fv1 = ScoreResult.score 199 ∧
      calculate_score_spec fv1 = ScoreResult.score 200 ∧
      calculate_score fv1 ≠ calculate_score_spec fv1 := by
  have h1 : calculate_score fv1 = ScoreResult.score 199 := by
    rw [calculate_score, if_neg fv1_tt_ne]
    rw [show fv1.wallet_id = "" from rfl, entropy_empty, fv1_weighted]
    norm_num [pyInt]
  have h2 : calculate_score_spec fv1 = ScoreResult.score 200 := by
    rw [calculate_score_spec, if_neg fv1_tt_ne]
    rw [show fv1.wallet_id = "" from rfl, entropy_empty, fv1_weighted]
    norm_num [round_eq]
  refine ⟨h1, h2, ?_⟩
  rw [h1, h2]
  simp

/-- C2 amended: for every feature vector with `total_transactions ≠ 0`, the
final score is `clamp(trunc((weighted_score + entropy*0.05)*1000), 0, 1000)`
where `trunc` is Python's `int()` truncation toward zero (not rounding),
`weighted_score` the weighted sum of the six sub-scores with the fixed
weight table, and `entropy` the wallet-derived entropy. -/
theorem C2_amended (f : Features) (h : f.total_transactions ≠ 0) :
    calculate_score f = ScoreResult.score (min 1000 (max 0 (pyInt
      ((calculate_liquidation_risk f * 0.20 + calculate_leverage_risk f * 0.20 +
        calculate_activity_risk f * 0.15 + calculate_behavioral_risk f * 0.15 +
        calculate_trading_pattern_risk f * 0.15 + calculate_technical_risk f * 0.15 +
        get_wallet_entropy f.wallet_id * 0.05) * 1000)))) := by
  simp only [calculate_score, weighted_score, if_neg h]

/-- Witness for C2's amended statement at the concrete vector `fv1`. -/
theorem C2_witness :
    calculate_score fv1 = ScoreResult.score (min 1000 (max 0 (pyInt
      ((calculate_liquidation_risk fv1 * 0.20 + calculate_leverage_risk fv1 * 0.20 +
        calculate_activity_risk fv1 * 0.15 + calculate_behavioral_risk fv1 * 0.15 +
        calculate_trading_pattern_risk fv1 * 0.15 + calculate_technical_risk fv1 * 0.15 +
        get_wallet_entropy fv1.wallet_id * 0.05) * 1000)))) :=
  C2_amended fv1 fv1_tt_ne

/-- C9: scoring is a function of the feature vector alone plus the wallet id,
and the wallet id influences only the entropy term: replacing the injected
`wallet_id` leaves all six feature-derived sub-scores unchanged, and the final
score of the updated vector is the clamp of the original weighted score plus
the new wallet's entropy contribution. (Determinism itself is inherent: the
embedding is a pure function.) -/
theorem C9_wallet_only_entropy (f : Features) (w : String)
    (h : f.total_transactions ≠ 0) :
    calculate_liquidation_risk { f with wallet_id := w } = calculate_liquidation_risk f ∧
    calculate_leverage_risk { f with wallet_id := w } = calculate_leverage_risk f ∧
    calculate_activity_risk { f with wallet_id := w } = calculate_activity_risk f ∧
    calculate_behavioral_risk { f with wallet_id := w } = calculate_behavioral_risk f ∧
    calculate_trading_pattern_risk { f with wallet_id := w } = calculate_trading_pattern_risk f ∧
    calculate_technical_risk { f with wallet_id := w } = calculate_technical_risk f ∧
    calculate_score { f with wallet_id := w } =
      ScoreResult.score (min 1000 (max 0 (pyInt
        ((weighted_score f + get_wallet_entropy w * 0.05) * 1000)))) := by
  have htt : ({ f with wallet_id := w } : Features).total_transactions =
      f.total_transactions := rfl
  refine ⟨rfl, rfl, rfl, rfl, rfl, rfl, ?_⟩
  simp only [calculate_score, htt, if_neg h]
  rfl

/-- Witness for C9 at `fv1` and a concrete wallet id. -/
theorem C9_witness :
    calculate_liquidation_risk { fv1 with wallet_id := "0xABCDEF01" } =
      calculate_liquidation_risk fv1 :=
  (C9_wallet_only_entropy fv1 "0xABCDEF01" fv1_tt_ne).1

/-- C5: `calculate_score` returns the NA sentinel iff `total_transactions = 0`;
extracting from the empty transaction list and scoring returns NA for every
injected wallet id; and every vector with `total_transactions > 0` yields an
integer score. -/
theorem C5_na_iff :
    (∀ f : Features, calculate_score f = ScoreResult.NA ↔ f.total_transactions = 0) ∧
    (∀ w : String, analyze_wallet [] w = ScoreResult.NA) ∧
    (∀ f : Features, 0 < f.total_transactions →
      ∃ n : ℤ, calculate_score f = ScoreResult.score n) := by
  refine ⟨fun f => ⟨fun h => ?_, fun h => by simp [calculate_score, h]⟩,
    fun w => ?_,
    fun f h =>
      ⟨min 1000 (max 0 (pyInt
          ((weighted_score f + get_wallet_entropy f.wallet_id * 0.05) * 1000))),
        by simp only [calculate_score, if_neg h.ne']⟩⟩
  · by_contra hne
    simp [calculate_score, hne] at h
  · simp [analyze_wallet, extract_features, calculate_score, get_default_features]

/-- Witness for C5's positive-count part at the concrete vector `fv1`. -/
theorem C5_witness : ∃ n : ℤ, calculate_score fv1 = ScoreResult.score n :=
  C5_na_iff.2.2 fv1 (by norm_num [fv1])

lemma clamp_mem (lo hi y : ℝ) (h : lo ≤ hi) :
    lo ≤ max lo (min hi y) ∧ max lo (min hi y) ≤ hi :=
  ⟨le_max_left _ _, max_le h (min_le_left _ _)⟩

lemma normalize_value_mem (v a : ℝ) :
    0 ≤ normalize_value v a 1000 ∧ normalize_value v a 1000 ≤ 1 := by
  rw [normalize_value]
  split_ifs with h
  · norm_num
  · push_neg at h
    have hl1 : 0 ≤ Real.logb 10 (v + 1) := Real.logb_nonneg (by norm_num) (by linarith)
    have hl2 : 0 < Real.logb 10 ((1000 : ℝ) + 1) := Real.logb_pos (by norm_num) (by norm_num)
    refine ⟨le_min (by norm_num) (div_nonneg hl1 hl2.le), ?_⟩
    exact (min_le_left _ _).trans (by norm_num)

lemma liquidation_risk_mem (f : Features)
    (hlc : 0 ≤ f.liquidation_count) (hr : 0 ≤ f.risky_function_ratio) :
    0 ≤ calculate_liquidation_risk f ∧ calculate_liquidation_risk f ≤ 1 := by
  simp only [calculate_liquidation_risk]
  have h1 : 0 ≤ min 1.0 (f.liquidation_count / 3.0) :=
    le_min (by norm_num) (div_nonneg hlc (by norm_num))
  have h2 : min 1.0 (f.liquidation_count / 3.0) ≤ 1.0 := min_le_left _ _
  have h3 : 0 ≤ min 0.9 (f.risky_function_ratio * 1.2) :=
    le_min (by norm_num) (mul_nonneg hr (by norm_num))
  have h4 : min 0.9 (f.risky_function_ratio * 1.2) ≤ 0.9 := min_le_left _ _
  constructor <;> linarith

lemma leverage_risk_mem (f : Features) (hvc : 0 ≤ f.value_concentration)
    (hvs : 0 ≤ f.value_std) (htg : 0 ≤ f.total_gas_cost) :
    0 ≤ calculate_leverage_risk f ∧ calculate_leverage_risk f ≤ 1 := by
  simp only [calculate_leverage_risk]
  have hc0 : 0 ≤ min 0.95 (f.value_concentration * 1.5) :=
    le_min (by norm_num) (mul_nonneg hvc (by norm_num))
  have hc1 : min 0.95 (f.value_concentration * 1.5) ≤ 0.95 := min_le_left _ _
  have hmx : (0 : ℝ) ≤ max f.max_value 0.001 :=
    le_trans (by norm_num) (le_max_right _ _)
  have hv0 : 0 ≤ min 1.0 (f.value_std / max f.max_value 0.001) :=
    le_min (by norm_num) (div_nonneg hvs hmx)
  have hv1 : min 1.0 (f.value_std / max f.max_value 0.001) ≤ 1.0 := min_le_left _ _
  rcases le_or_lt f.max_value 0 with hmv | hmv
  · rw [if_pos hmv]
    have hs0 : 0 ≤ min 0.6 (f.total_gas_cost / 10 ^ 18 / 0.02) :=
      le_min (by norm_num) (div_nonneg (div_nonneg htg (by norm_num)) (by norm_num))
    have hs1 : min 0.6 (f.total_gas_cost / 10 ^ 18 / 0.02) ≤ 0.6 := min_le_left _ _
    constructor <;> linarith
  · rw [if_neg (not_le.mpr hmv)]
    obtain ⟨hn0, hn1⟩ := normalize_value_mem f.max_value 0.001
    have hs0 : 0 ≤ min 0.95 (normalize_value f.max_value 0.001 1000 * 1.2) :=
      le_min (by norm_num) (mul_nonneg hn0 (by norm_num))
    have hs1 : min 0.95 (normalize_value f.max_value 0.001 1000 * 1.2) ≤ 0.95 :=
      min_le_left _ _
    constructor <;> linarith

lemma freq_risk_mem (x : ℝ) (hx : 0 ≤ x) :
    0 ≤ (if x < 0.1 then 0.3 + (0.1 - x) * 2
      else if x > 3 then min 0.9 (0.4 + (x - 3) * 0.1) else 0.1 + x * 0.1) ∧
    (if x < 0.1 then 0.3 + (0.1 - x) * 2
      else if x > 3 then min 0.9 (0.4 + (x - 3) * 0.1) else 0.1 + x * 0.1) ≤ 0.9 := by
  split_ifs with u v
  · constructor <;> linarith
  · exact ⟨le_min (by norm_num) (by linarith), min_le_left _ _⟩
  · push_neg at u v
    constructor <;> linarith

lemma activity_risk_mem (f : Features) (htf : 0 ≤ f.transaction_frequency)
    (htr1 : f.time_regularity ≤ 1) :
    0 ≤ calculate_activity_risk f ∧ calculate_activity_risk f ≤ 1 := by
  simp only [calculate_activity_risk]
  obtain ⟨u1, u2⟩ := freq_risk_mem f.transaction_frequency htf
  obtain ⟨t1, t2⟩ := clamp_mem 0.1 0.8 (1.0 / Real.sqrt (f.days_active + 1)) (by norm_num)
  have i1 : 0 ≤ min 0.7 ((1.0 - f.time_regularity) * 0.8) :=
    le_min (by norm_num) (mul_nonneg (by linarith) (by norm_num))
  have i2 : min 0.7 ((1.0 - f.time_regularity) * 0.8) ≤ 0.7 := min_le_left _ _
  constructor <;> linarith

lemma behavioral_risk_mem (f : Features) (hs0 : 0 ≤ f.safe_function_ratio)
    (hs1 : f.safe_function_ratio ≤ 1) (hag : 0 ≤ f.avg_gas_used) :
    0 ≤ calculate_behavioral_risk f ∧ calculate_behavioral_risk f ≤ 1 := by
  simp only [calculate_behavioral_risk]
  obtain ⟨d1, d2⟩ := clamp_mem 0.1 0.8 (1.0 / (f.function_diversity + 0.5)) (by norm_num)
  have sa0 : 0 ≤ (1.0 - f.safe_function_ratio) ^ (1.5 : ℝ) :=
    Real.rpow_nonneg (by linarith) _
  have sa1 : (1.0 - f.safe_function_ratio) ^ (1.5 : ℝ) ≤ 1 :=
    Real.rpow_le_one (by linarith) (by linarith) (by norm_num)
  obtain ⟨c1, c2⟩ :=
    clamp_mem 0.1 0.7 (0.8 / Real.sqrt (f.unique_contracts + 0.5)) (by norm_num)
  have hg : 0 ≤ (if f.avg_gas_used > 0 then min 0.3 (f.avg_gas_used / 500000) else 0.1) ∧
      (if f.avg_gas_used > 0 then min 0.3 (f.avg_gas_used / 500000) else 0.1) ≤ 0.3 := by
    split_ifs with h
    · exact ⟨le_min (by norm_num) (div_nonneg hag (by norm_num)), min_le_left _ _⟩
    · norm_num
  obtain ⟨g1, g2⟩ := hg
  constructor <;> linarith

lemma trading_risk_mem (f : Features) :
    0 ≤ calculate_trading_pattern_risk f ∧ calculate_trading_pattern_risk f ≤ 1 := by
  simp only [calculate_trading_pattern_risk]
  constructor
  · exact le_min (by norm_num) (le_trans (by norm_num) (le_max_left _ _))
  · exact (min_le_left _ _).trans (by norm_num)

lemma technical_risk_mem (f : Features) (hgp : 0 ≤ f.avg_gas_price)
    (hfd : 0 ≤ f.function_diversity) (huc : 0 ≤ f.unique_contracts) :
    0 ≤ calculate_technical_risk f ∧ calculate_technical_risk f ≤ 1 := by
  simp only [calculate_technical_risk]
  have hge : 0 ≤ (if f.avg_gas_price > 0 then
        min 0.9 (0.2 + min 1.0 (f.avg_gas_price / 10 ^ 9 / 100) * 0.7) else 0.2) ∧
      (if f.avg_gas_price > 0 then
        min 0.9 (0.2 + min 1.0 (f.avg_gas_price / 10 ^ 9 / 100) * 0.7) else 0.2) ≤ 0.9 := by
    split_ifs with h
    · have hn : 0 ≤ min 1.0 (f.avg_gas_price / 10 ^ 9 / 100) :=
        le_min (by norm_num) (div_nonneg (div_nonneg hgp (by norm_num)) (by norm_num))
      exact ⟨le_min (by norm_num) (by nlinarith), min_le_left _ _⟩
    · norm_num
  obtain ⟨e1, e2⟩ := hge
  have f1 : 0 ≤ min 0.8 (f.function_diversity / 10.0) :=
    le_min (by norm_num) (div_nonneg hfd (by norm_num))
  have f2 : min 0.8 (f.function_diversity / 10.0) ≤ 0.8 := min_le_left _ _
  have c1 : 0 ≤ min 0.9 (f.unique_contracts / 5.0) :=
    le_min (by norm_num) (div_nonneg huc (by norm_num))
  have c2 : min 0.9 (f.unique_contracts / 5.0) ≤ 0.9 := min_le_left _ _
  have ho : 0 ≤ (if f.transaction_frequency > 0.5 then
        min 0.9 (0.1 + (f.transaction_frequency - 0.5) * 0.3) else 0.1) ∧
      (if f.transaction_frequency > 0.5 then
        min 0.9 (0.1 + (f.transaction_frequency - 0.5) * 0.3) else 0.1) ≤ 0.9 := by
    split_ifs with h
    · exact ⟨le_min (by norm_num) (by linarith), min_le_left _ _⟩
    · norm_num
  obtain ⟨o1, o2⟩ := ho
  constructor <;> linarith

/-- C4: for every valid feature vector each of the six sub-scores lies in
[0,1], and the final score is an integer in [0,1000]. -/
theorem C4_ranges (f : Features) (hv : ValidFeatures f) :
    (0 ≤ calculate_liquidation_risk f ∧ calculate_liquidation_risk f ≤ 1) ∧
    (0 ≤ calculate_leverage_risk f ∧ calculate_leverage_risk f ≤ 1) ∧
    (0 ≤ calculate_activity_risk f ∧ calculate_activity_risk f ≤ 1) ∧
    (0 ≤ calculate_behavioral_risk f ∧ calculate_behavioral_risk f ≤ 1) ∧
    (0 ≤ calculate_trading_pattern_risk f ∧ calculate_trading_pattern_risk f ≤ 1) ∧
    (0 ≤ calculate_technical_risk f ∧ calculate_technical_risk f ≤ 1) ∧
    ∃ n : ℤ, calculate_score f = ScoreResult.score n ∧ 0 ≤ n ∧ n ≤ 1000 :=
  ⟨liquidation_risk_mem f hv.lc_nonneg hv.rfr_nonneg,
    leverage_risk_mem f hv.vc_nonneg hv.vstd_nonneg hv.tgc_nonneg,
    activity_risk_mem f hv.tf_nonneg hv.treg_le_one,
    behavioral_risk_mem f hv.sfr_nonneg hv.sfr_le_one hv.agu_nonneg,
    trading_risk_mem f,
    technical_risk_mem f hv.agp_nonneg hv.fd_nonneg hv.uc_nonneg,
    ⟨min 1000 (max 0 (pyInt
        ((weighted_score f + get_wallet_entropy f.wallet_id * 0.05) * 1000))),
      by simp only [calculate_score, if_neg hv.tt_pos.ne'],
      le_min (by norm_num) (le_max_left _ _), min_le_left _ _⟩⟩

/-- Witness for C4 at the concrete valid vector `fv1`. -/
theorem C4_witness : ∃ n : ℤ,
    calculate_score fv1 = ScoreResult.score n ∧ 0 ≤ n ∧ n ≤ 1000 := by
  have hv : ValidFeatures fv1 := by constructor <;> norm_num [fv1]
  exact (C4_ranges fv1 hv).2.2.2.2.2.2

lemma entropy_bounds (w : String) :
    0 ≤ get_wallet_entropy w ∧ get_wallet_entropy w < 0.1 := by
  rw [get_wallet_entropy]
  split_ifs
  · norm_num
  · rcases hp : pyIntHex (w.toList.drop (w.length - 8)) with _ | v
    · norm_num
    · have h0 : (0 : ℤ) ≤ v % 1000 := Int.emod_nonneg v (by norm_num)
      have hlt : (v % 1000 : ℤ) < 1000 := Int.emod_lt_of_pos v (by norm_num)
      have hc0 : (0 : ℝ) ≤ ((v % 1000 : ℤ) : ℝ) := by exact_mod_cast h0
      have hc1 : ((v % 1000 : ℤ) : ℝ) < 1000 := by exact_mod_cast hlt
      constructor
      · positivity
      · rw [div_lt_iff₀ (by norm_num)]
        linarith

/-- C8: the wallet entropy is 0 when the id is shorter than 8 characters, and
otherwise `(v mod 1000)/10000` with Python's `%` for the integer value `v` of
the trailing 8 characters under `int(..., 16)`, or 0 when they do not parse
as hexadecimal; it lies in [0, 0.1), so its contribution `entropy * 0.05` to
the normalized score lies in [0, 0.005]. -/
theorem C8_entropy (w : String) :
    (w.length < 8 → get_wallet_entropy w = 0) ∧
    (∀ v : ℤ, 8 ≤ w.length →
      pyIntHex (w.toList.drop (w.length - 8)) = some v →
      get_wallet_entropy w = ((v % 1000 : ℤ) : ℝ) / 10000) ∧
    (8 ≤ w.length → pyIntHex (w.toList.drop (w.length - 8)) = none →
      get_wallet_entropy w = 0) ∧
    0 ≤ get_wallet_entropy w ∧ get_wallet_entropy w < 0.1 ∧
    0 ≤ get_wallet_entropy w * 0.05 ∧ get_wallet_entropy w * 0.05 ≤ 0.005 := by
  obtain ⟨hb0, hb1⟩ := entropy_bounds w
  refine ⟨fun h => by rw [get_wallet_entropy, if_pos h],
    fun v hge hp => ?_, fun hge hp => ?_, hb0, hb1,
    mul_nonneg hb0 (by norm_num), by linarith⟩
  · rw [get_wallet_entropy, if_neg (Nat.not_lt.mpr hge), hp]
  · rw [get_wallet_entropy, if_neg (Nat.not_lt.mpr hge), hp]

/-- Witness for C8 at six 8-character-relevant ids: a short id; plain digits
(0x123 = 291); a trailing slice with the `0x` prefix (0x123456 = 1193046,
mod 1000 = 46); one with leading whitespace (0x1234567 = 19088743, mod 1000
= 743); a signed one (-1, Python mod gives 999); and a non-hexadecimal one. -/
theorem C8_witness :
    get_wallet_entropy "0xABC" = 0 ∧
    get_wallet_entropy "00000123" = ((291 % 1000 : ℤ) : ℝ) / 10000 ∧
    get_wallet_entropy "0x123456" = ((1193046 % 1000 : ℤ) : ℝ) / 10000 ∧
    get_wallet_entropy " 1234567" = ((19088743 % 1000 : ℤ) : ℝ) / 10000 ∧
    get_wallet_entropy "-0x00001" = (((-1) % 1000 : ℤ) : ℝ) / 10000 ∧
    get_wallet_entropy "zzzzzzzz" = 0 :=
  ⟨(C8_entropy "0xABC").1 (by decide),
    (C8_entropy "00000123").2.1 291 (by decide) (by decide),
    (C8_entropy "0x123456").2.1 1193046 (by decide) (by decide),
    (C8_entropy " 1234567").2.1 19088743 (by decide) (by decide),
    (C8_entropy "-0x00001").2.1 (-1) (by decide) (by decide),
    (C8_entropy "zzzzzzzz").2.2.1 (by decide) (by decide)⟩

/-- C1 counterexample: a well-formed mapping holding only
`total_transactions = 1` (positive), on which `calculate_score` raises a
`KeyError` (modelled `none`) at the `features["liquidation_count"]` lookup
instead of treating the missing keys as 0 and returning an integer. -/
theorem C1_counterexample :
    C1bad.total_transactions = some 1 ∧ calculate_scoreP C1bad = none := by
  refine ⟨rfl, ?_⟩
  simp [calculate_scoreP, calculate_liquidation_riskP, C1bad]

/-- C1 amended: the scorer is total only over mappings that contain the twelve
keys the source reads with `features[...]` (total_transactions,
liquidation_count, risky_function_ratio, max_value, value_concentration,
value_std, transaction_frequency, days_active, time_regularity,
function_diversity, safe_function_ratio, unique_contracts); the remaining
keys are read through default-valued `features.get(...)` lookups and may be
absent. For such a mapping with `total_transactions > 0` an integer score is
returned. -/
theorem C1_total_on_required_keys (p : PFeatures) (tt : ℝ)
    (htt : p.total_transactions = some tt) (hpos : 0 < tt)
    (h1 : p.liquidation_count.isSome = true)
    (h2 : p.risky_function_ratio.isSome = true)
    (h3 : p.max_value.isSome = true)
    (h4 : p.value_concentration.isSome = true)
    (h5 : p.value_std.isSome = true)
    (h6 : p.transaction_frequency.isSome = true)
    (h7 : p.days_active.isSome = true)
    (h8 : p.time_regularity.isSome = true)
    (h9 : p.function_diversity.isSome = true)
    (h10 : p.safe_function_ratio.isSome = true)
    (h11 : p.unique_contracts.isSome = true) :
    ∃ n : ℤ, calculate_scoreP p = some (ScoreResult.score n) := by
  obtain ⟨lc, e1⟩ := Option.isSome_iff_exists.mp h1
  obtain ⟨rfr, e2⟩ := Option.isSome_iff_exists.mp h2
  obtain ⟨mv, e3⟩ := Option.isSome_iff_exists.mp h3
  obtain ⟨vc, e4⟩ := Option.isSome_iff_exists.mp h4
  obtain ⟨vs, e5⟩ := Option.isSome_iff_exists.mp h5
  obtain ⟨tf, e6⟩ := Option.isSome_iff_exists.mp h6
  obtain ⟨da, e7⟩ := Option.isSome_iff_exists.mp h7
  obtain ⟨tr, e8⟩ := Option.isSome_iff_exists.mp h8
  obtain ⟨fd, e9⟩ := Option.isSome_iff_exists.mp h9
  obtain ⟨sf, e10⟩ := Option.isSome_iff_exists.mp h10
  obtain ⟨uc, e11⟩ := Option.isSome_iff_exists.mp h11
  simp only [calculate_scoreP, calculate_liquidation_riskP, calculate_leverage_riskP,
    calculate_activity_riskP, calculate_behavioral_riskP, htt, e1, e2, e3, e4, e5,
    e6, e7, e8, e9, e10, e11, Option.bind_eq_bind, Option.some_bind, if_neg hpos.ne']
  exact ⟨_, rfl⟩

/-- Witness for C1's amended statement: the fully populated mapping built from
the concrete vector `fv1`. -/
theorem C1_witness :
    ∃ n : ℤ, calculate_scoreP (toPFeatures fv1) = some (ScoreResult.score n) :=
  C1_total_on_required_keys (toPFeatures fv1) 1 rfl (by norm_num)
    rfl rfl rfl rfl rfl rfl rfl rfl rfl rfl rfl

set_option maxHeartbeats 1600000 in
/-- C10: in the trading-pattern, technical and behavioral sub-scores every
division and square root is guarded: on any feature vector with non-negative
numeric entries, the variants that check each division for a zero denominator
and each square root for a negative argument succeed and return exactly the
unchecked sub-scores. -/
theorem C10_guarded_divisions (f : Features) (h : NonnegFeatures f) :
    calculate_trading_pattern_risk_ck f = some (calculate_trading_pattern_risk f) ∧
    calculate_technical_risk_ck f = some (calculate_technical_risk f) ∧
    calculate_behavioral_risk_ck f = some (calculate_behavioral_risk f) := by
  have e15 : (15.0 : ℝ) ≠ 0 := by norm_num
  have e5 : (5.0 : ℝ) ≠ 0 := by norm_num
  have e10 : (10.0 : ℝ) ≠ 0 := by norm_num
  have e100 : (100 : ℝ) ≠ 0 := by norm_num
  have e1e9 : ((10 : ℝ) ^ 9) ≠ 0 := by norm_num
  have e5e5 : (500000 : ℝ) ≠ 0 := by norm_num
  have hlen : (max ((f.function_names).length : ℝ) 1) ≠ 0 :=
    (lt_of_lt_of_le one_pos (le_max_right _ _)).ne'
  have hav : (max f.avg_value 0.001) ≠ 0 :=
    (lt_of_lt_of_le (by norm_num) (le_max_right _ _)).ne'
  have hfd : (f.function_diversity + 0.5) ≠ 0 := by
    have := h.fd_nonneg; positivity
  have hucpos : (0 : ℝ) < f.unique_contracts + 0.5 := by
    have := h.uc_nonneg; positivity
  have hsqrt : Real.sqrt (f.unique_contracts + 0.5) ≠ 0 :=
    (Real.sqrt_pos.mpr hucpos).ne'
  refine ⟨?_, ?_, ?_⟩
  · by_cases h1 : f.max_value > 0 ∧ f.avg_value > 0
    · by_cases h2 : f.avg_time_between_tx > 0
      · simp [calculate_trading_pattern_risk_ck, calculate_trading_pattern_risk,
          divCk, hlen, hav, e15, e5, h1, h2, h1.2, h1.2.ne', h2.ne']
      · simp [calculate_trading_pattern_risk_ck, calculate_trading_pattern_risk,
          divCk, hlen, hav, e15, e5, h1, h2, h1.2, h1.2.ne']
    · by_cases h2 : f.avg_time_between_tx > 0
      · by_cases h3 : f.avg_value > 0
        · have hmv : ¬(f.max_value > 0) := fun ha => h1 ⟨ha, h3⟩
          simp [calculate_trading_pattern_risk_ck, calculate_trading_pattern_risk,
            divCk, hlen, hav, e15, e5, h1, h2, h3, hmv, h2.ne', h3.ne']
        · simp [calculate_trading_pattern_risk_ck, calculate_trading_pattern_risk,
            divCk, hlen, hav, e15, e5, h1, h2, h3, h2.ne']
      · by_cases h3 : f.avg_value > 0
        · have hmv : ¬(f.max_value > 0) := fun ha => h1 ⟨ha, h3⟩
          simp [calculate_trading_pattern_risk_ck, calculate_trading_pattern_risk,
            divCk, hlen, hav, e15, e5, h1, h2, h3, hmv, h3.ne']
        · simp [calculate_trading_pattern_risk_ck, calculate_trading_pattern_risk,
            divCk, hlen, hav, e15, e5, h1, h2, h3]
  · by_cases h1 : f.avg_gas_price > 0
    · simp [calculate_technical_risk_ck, calculate_technical_risk, divCk,
        e100, e1e9, e10, e5, h1]
    · simp [calculate_technical_risk_ck, calculate_technical_risk, divCk,
        e100, e1e9, e10, e5, h1]
  · by_cases h1 : f.avg_gas_used > 0
    · simp [calculate_behavioral_risk_ck, calculate_behavioral_risk, divCk, sqrtCk,
        hfd, hsqrt, not_lt.mpr hucpos.le, e5e5, h1]
    · simp [calculate_behavioral_risk_ck, calculate_behavioral_risk, divCk, sqrtCk,
        hfd, hsqrt, not_lt.mpr hucpos.le, e5e5, h1]

/-- Witness for C10 at the concrete non-negative vector `fv1`. -/
theorem C10_witness :
    calculate_behavioral_risk_ck fv1 = some (calculate_behavioral_risk fv1) := by
  have h : NonnegFeatures fv1 := by constructor <;> norm_num [fv1]
  exact (C10_guarded_divisions fv1 h).2.2

end

end WalletRisk
